import Mathlib

/-!
Verification of the `hamsaya_dashboard` API client (`src/lib/api-client.ts`)
and auth context (`src/context/AuthContext.tsx`).

The client stores an access token and a refresh token in two named cookie
slots, attaches `Authorization: Bearer <token>` to outbound requests via a
request interceptor, and handles 401 responses via a response interceptor
that performs at most one token refresh followed by one redispatch of the
original request (marked with an `X-Retry` header).

The embedding below models the cookie jar as an association list keyed by
cookie name (value plus `expires` option in days), JavaScript string
truthiness explicitly (`undefined` and the empty string are falsy), and the
interceptor pipeline as a fuel-indexed dispatch function over an abstract
server and an abstract outcome of the bare `axios.post` refresh call.
-/

namespace Hamsaya

/-- A cookie jar: association list of (name, value, expires-in-days),
modelling the `js-cookie` store.  The head entry for a name shadows later
ones, matching `Cookies.set` overwriting a cookie. -/
abbrev CookieJar := List (String × String × Nat)

/-- `Cookies.get(key)`: the value of the first entry named `key`. -/
def cookiesGet (jar : CookieJar) (key : String) : Option String :=
  (jar.find? (fun e => e.1 == key)).map (fun e => e.2.1)

/-- `Cookies.set(key, value, { expires })`: replace any entry named `key`. -/
def cookiesSet (jar : CookieJar) (key value : String) (expires : Nat) : CookieJar :=
  (key, value, expires) :: jar.filter (fun e => !(e.1 == key))

/-- `Cookies.remove(key)`. -/
def cookiesRemove (jar : CookieJar) (key : String) : CookieJar :=
  jar.filter (fun e => !(e.1 == key))

/-- The `expires` option recorded for the cookie named `key`, if present. -/
def cookieExpiry (jar : CookieJar) (key : String) : Option Nat :=
  (jar.find? (fun e => e.1 == key)).map (fun e => e.2.2)

/-- `const TOKEN_KEY = 'hamsaya_admin_token'` -/
def TOKEN_KEY : String := "hamsaya_admin_token"

/-- `const REFRESH_TOKEN_KEY = 'hamsaya_admin_refresh_token'` -/
def REFRESH_TOKEN_KEY : String := "hamsaya_admin_refresh_token"

/-- `getToken`: read the access-token cookie. -/
def getToken (jar : CookieJar) : Option String :=
  cookiesGet jar TOKEN_KEY

/-- `setToken`: `Cookies.set(TOKEN_KEY, token, { expires: 7 })`. -/
def setToken (jar : CookieJar) (token : String) : CookieJar :=
  cookiesSet jar TOKEN_KEY token 7

/-- `getRefreshToken`: read the refresh-token cookie. -/
def getRefreshToken (jar : CookieJar) : Option String :=
  cookiesGet jar REFRESH_TOKEN_KEY

/-- `setRefreshToken`: `Cookies.set(REFRESH_TOKEN_KEY, token, { expires: 7 })`. -/
def setRefreshToken (jar : CookieJar) (token : String) : CookieJar :=
  cookiesSet jar REFRESH_TOKEN_KEY token 7

/-- `removeTokens`: remove both cookies. -/
def removeTokens (jar : CookieJar) : CookieJar :=
  cookiesRemove (cookiesRemove jar TOKEN_KEY) REFRESH_TOKEN_KEY

/-- JavaScript truthiness of a `string | undefined` value:
`undefined` and `''` are falsy, every other string is truthy. -/
def truthy : Option String → Bool
  | none => false
  | some s => !s.isEmpty

/-- An outbound HTTP request config (`AxiosRequestConfig`): url, method and
body plus a header map, modelled as an association list. -/
structure Request where
  url : String
  method : String
  body : String
  headers : List (String × String)
deriving DecidableEq, Repr

/-- Read a header value (`config.headers[k]`). -/
def headerGet (hs : List (String × String)) (k : String) : Option String :=
  (hs.find? (fun e => e.1 == k)).map Prod.snd

/-- Assign a header (`config.headers[k] = v`), overwriting any prior value. -/
def headerSet (hs : List (String × String)) (k v : String) : List (String × String) :=
  (k, v) :: hs.filter (fun e => !(e.1 == k))

/-- The request interceptor: read the stored access token and, when it is
truthy, set `Authorization` to `Bearer <token>`; otherwise return the
config unchanged.

```js
const token = getToken()
if (token) { config.headers.Authorization = `Bearer ${token}` }
return config
``` -/
def attachToken (jar : CookieJar) (config : Request) : Request :=
  match getToken jar with
  | none => config
  | some token =>
      if token.isEmpty then config
      else { config with headers := headerSet config.headers "Authorization" ("Bearer " ++ token) }

/-- Outcome of the bare `axios.post(`API_URL`/auth/refresh`, ...)` call:
either the promise rejects (network error or error HTTP status), or it
resolves with a body carrying `success` and optionally `data.tokens`. -/
inductive RefreshOutcome where
  | netError (e : Nat)
  | ok (success : Bool) (tokens : Option (String × String))
deriving DecidableEq, Repr

/-- Mutable browser state touched by the interceptors: the cookie jar and
`window.location.href` (recorded when assigned). -/
structure Env where
  jar : CookieJar
  location : Option String
deriving DecidableEq, Repr

/-- What the caller's promise is settled with when the response interceptor
rejects: the original error, or the error thrown by the refresh call. -/
inductive Rejection where
  | original
  | refreshErr (e : Nat)
deriving DecidableEq, Repr

/-- Result of the response interceptor's error handler: redispatch the
(mutated) original request through the client, or reject. -/
inductive HandlerResult where
  | redispatch (req : Request)
  | reject (r : Rejection)
deriving DecidableEq, Repr

/-- The error object given to the response interceptor:
`error.response?.status` and `error.config`. -/
structure ErrorObj where
  status : Option Nat
  config : Option Request
deriving DecidableEq, Repr

/-- Output of the error handler: updated browser state, the handler result,
and whether the refresh endpoint was called. -/
structure HandleOut where
  env : Env
  result : HandlerResult
  refreshAttempted : Bool
deriving DecidableEq, Repr

/-- The response interceptor's error branch.

```js
const originalRequest = error.config
if (error.response?.status === 401 && originalRequest && !originalRequest.headers['X-Retry']) {
  const refreshToken = getRefreshToken()
  if (refreshToken) {
    try {
      const response = await axios.post(`API_URL/auth/refresh`, { refresh_token: refreshToken })
      if (response.data.success && response.data.data.tokens) {
        const { access_token, refresh_token: newRefreshToken } = response.data.data.tokens
        setToken(access_token); setRefreshToken(newRefreshToken)
        originalRequest.headers.Authorization = `Bearer ${access_token}`
        originalRequest.headers['X-Retry'] = 'true'
        return apiClient(originalRequest)
      }
    } catch (refreshError) {
      removeTokens(); window.location.href = '/login'
      return Promise.reject(refreshError)
    }
  } else {
    removeTokens(); window.location.href = '/login'
  }
}
return Promise.reject(error)
```

The `refresh` argument is the outcome of the bare `axios.post` transport,
which does not pass through this interceptor. -/
def handle401 (env : Env) (refresh : RefreshOutcome) (err : ErrorObj) : HandleOut :=
  match err.config with
  | none => ⟨env, .reject .original, false⟩
  | some originalRequest =>
      if (err.status == some 401) && !truthy (headerGet originalRequest.headers "X-Retry") then
        if truthy (getRefreshToken env.jar) then
          match refresh with
          | .ok true (some (access_token, newRefreshToken)) =>
              let jar := setRefreshToken (setToken env.jar access_token) newRefreshToken
              let headers :=
                headerSet (headerSet originalRequest.headers "Authorization" ("Bearer " ++ access_token))
                  "X-Retry" "true"
              ⟨{ env with jar := jar }, .redispatch { originalRequest with headers := headers }, true⟩
          | .ok true none => ⟨env, .reject .original, true⟩
          | .ok false _ => ⟨env, .reject .original, true⟩
          | .netError e =>
              ⟨⟨removeTokens env.jar, some "/login"⟩, .reject (.refreshErr e), true⟩
        else
          ⟨⟨removeTokens env.jar, some "/login"⟩, .reject .original, false⟩
      else ⟨env, .reject .original, false⟩

/-- What the abstract backend answers a dispatched request with: a payload,
or an error carrying `error.response?.status` (`none` models a network
error with no response). -/
inductive ServerResponse where
  | success (data : String)
  | error (status : Option Nat)
deriving DecidableEq, Repr

/-- Final outcome of dispatching one request through `apiClient`. -/
inductive Outcome where
  | ok (data : String)
  | rejected (r : Rejection)
  | fuelExhausted
deriving DecidableEq, Repr

/-- Trace of a dispatch: final browser state, the settled outcome, the
requests actually sent over the wire (after the request interceptor), and
how many times the refresh endpoint was called. -/
structure DispatchResult where
  env : Env
  outcome : Outcome
  sent : List Request
  refreshCalls : Nat
deriving DecidableEq, Repr

/-- `apiClient(req)`: run the request interceptor, send, and on an error
response run the response interceptor's error handler, following a
redispatch recursively.  `fuel` bounds the recursion depth so the model is
total; the theorems show fuel `2` is never exhausted. -/
def dispatchFuel (server : Request → ServerResponse) (refresh : RefreshOutcome) :
    Nat → Env → Request → DispatchResult
  | 0, env, _ => ⟨env, .fuelExhausted, [], 0⟩
  | fuel + 1, env, req =>
      let req' := attachToken env.jar req
      match server req' with
      | .success d => ⟨env, .ok d, [req'], 0⟩
      | .error st =>
          let h := handle401 env refresh ⟨st, some req'⟩
          match h.result with
          | .redispatch req2 =>
              let rest := dispatchFuel server refresh fuel h.env req2
              ⟨rest.env, rest.outcome, req' :: rest.sent,
                (if h.refreshAttempted then 1 else 0) + rest.refreshCalls⟩
          | .reject r =>
              ⟨h.env, .rejected r, [req'], if h.refreshAttempted then 1 else 0⟩

/-- Response body shape `ApiResponse`: optional `error` and `message` fields. -/
structure ApiBody where
  error : Option String
  message : Option String
deriving DecidableEq, Repr

/-- An axios error's `response` object: its `data` field may be absent. -/
structure AxiosResp where
  data : Option ApiBody
deriving DecidableEq, Repr

/-- The `unknown` value passed to `handleApiError`: an axios error (with
optional `response` and its own `message`), a plain `Error`, or any other
value. -/
inductive JsError where
  | axios (response : Option AxiosResp) (message : String)
  | plain (message : String)
  | other
deriving DecidableEq, Repr

/-- JavaScript `a || b` on a `string | undefined` left operand:
`b` when `a` is `undefined` or `''`, else `a`. -/
def jsOrStr (a : Option String) (b : String) : String :=
  match a with
  | none => b
  | some s => if s.isEmpty then b else s

/-- `handleApiError`:

```js
if (axios.isAxiosError(error)) {
  return error.response?.data?.error || error.response?.data?.message
      || error.message || 'An error occurred'
}
if (error instanceof Error) { return error.message }
return 'An unexpected error occurred'
``` -/
def handleApiError : JsError → String
  | .axios response message =>
      jsOrStr ((response.bind AxiosResp.data).bind ApiBody.error)
        (jsOrStr ((response.bind AxiosResp.data).bind ApiBody.message)
          (jsOrStr (some message) "An error occurred"))
  | .plain message => message
  | .other => "An unexpected error occurred"

/-- Auth provider state: browser state plus the `user` state variable. -/
structure AuthState where
  env : Env
  user : Option String
deriving DecidableEq, Repr

/-- `logout` in `AuthContext`: `removeTokens(); setUser(null); navigate('/login')`. -/
def logout (st : AuthState) : AuthState :=
  ⟨⟨removeTokens st.env.jar, some "/login"⟩, none⟩

/-! ### Association-list lemmas -/

theorem find?_key_filter {β : Type} (l : List (String × β)) (k k' : String)
    (h : (k' == k) = false) :
    (l.filter (fun e => !(e.1 == k))).find? (fun e => e.1 == k') =
      l.find? (fun e => e.1 == k') := by
  induction l with
  | nil => rfl
  | cons a l ih =>
      by_cases hak : (a.1 == k) = true
      · have h1 : a.1 = k := by simpa using hak
        have ha' : (a.1 == k') = false := by
          simp only [beq_eq_false_iff_ne] at h ⊢
          rw [h1]
          exact fun hk => h hk.symm
        simp [List.filter_cons, List.find?_cons, hak, ha', ih]
      · have hak' : (a.1 == k) = false := by simpa using hak
        simp [List.filter_cons, List.find?_cons, hak', ih]

theorem find?_key_filter_self {β : Type} (l : List (String × β)) (k : String) :
    (l.filter (fun e => !(e.1 == k))).find? (fun e => e.1 == k) = none := by
  rw [List.find?_eq_none]
  intro x hx
  have hmem := List.of_mem_filter hx
  simp only [Bool.not_eq_true'] at hmem
  simp [hmem]

theorem beq_comm_false {k k' : String} (h : (k' == k) = false) : (k == k') = false :=
  beq_eq_false_iff_ne.mpr (fun e => (beq_eq_false_iff_ne.mp h) e.symm)

theorem headerGet_headerSet_self (hs : List (String × String)) (k v : String) :
    headerGet (headerSet hs k v) k = some v := by
  unfold headerGet headerSet
  simp [List.find?_cons]

theorem headerGet_headerSet_ne (hs : List (String × String)) (k v k' : String)
    (h : (k' == k) = false) :
    headerGet (headerSet hs k v) k' = headerGet hs k' := by
  unfold headerGet headerSet
  simp only [List.find?_cons, beq_comm_false h, find?_key_filter _ _ _ h]

theorem cookiesGet_cookiesSet_self (jar : CookieJar) (k v : String) (e : Nat) :
    cookiesGet (cookiesSet jar k v e) k = some v := by
  unfold cookiesGet cookiesSet
  simp [List.find?_cons]

theorem cookiesGet_cookiesSet_ne (jar : CookieJar) (k v : String) (e : Nat) (k' : String)
    (h : (k' == k) = false) :
    cookiesGet (cookiesSet jar k v e) k' = cookiesGet jar k' := by
  unfold cookiesGet cookiesSet
  simp only [List.find?_cons, beq_comm_false h, find?_key_filter _ _ _ h]

theorem cookiesGet_cookiesRemove_self (jar : CookieJar) (k : String) :
    cookiesGet (cookiesRemove jar k) k = none := by
  unfold cookiesGet cookiesRemove
  rw [find?_key_filter_self]
  rfl

theorem cookiesGet_cookiesRemove_ne (jar : CookieJar) (k k' : String)
    (h : (k' == k) = false) :
    cookiesGet (cookiesRemove jar k) k' = cookiesGet jar k' := by
  unfold cookiesGet cookiesRemove
  rw [find?_key_filter _ _ _ h]

theorem key_ne : (TOKEN_KEY == REFRESH_TOKEN_KEY) = false := by decide

theorem key_ne' : (REFRESH_TOKEN_KEY == TOKEN_KEY) = false := by decide

theorem getToken_setToken (jar : CookieJar) (t : String) :
    getToken (setToken jar t) = some t :=
  cookiesGet_cookiesSet_self jar TOKEN_KEY t 7

theorem getToken_setRefreshToken (jar : CookieJar) (t : String) :
    getToken (setRefreshToken jar t) = getToken jar :=
  cookiesGet_cookiesSet_ne jar REFRESH_TOKEN_KEY t 7 TOKEN_KEY key_ne

theorem getRefreshToken_setRefreshToken (jar : CookieJar) (t : String) :
    getRefreshToken (setRefreshToken jar t) = some t :=
  cookiesGet_cookiesSet_self jar REFRESH_TOKEN_KEY t 7

theorem getRefreshToken_setToken (jar : CookieJar) (t : String) :
    getRefreshToken (setToken jar t) = getRefreshToken jar :=
  cookiesGet_cookiesSet_ne jar TOKEN_KEY t 7 REFRESH_TOKEN_KEY key_ne'

theorem getToken_removeTokens (jar : CookieJar) :
    getToken (removeTokens jar) = none := by
  unfold removeTokens getToken
  rw [cookiesGet_cookiesRemove_ne _ _ _ key_ne]
  exact cookiesGet_cookiesRemove_self jar TOKEN_KEY

theorem getRefreshToken_removeTokens (jar : CookieJar) :
    getRefreshToken (removeTokens jar) = none :=
  cookiesGet_cookiesRemove_self _ REFRESH_TOKEN_KEY

theorem removeTokens_idem (jar : CookieJar) :
    removeTokens (removeTokens jar) = removeTokens jar := by
  unfold removeTokens cookiesRemove
  have h1 : List.filter (fun e => !(e.1 == TOKEN_KEY))
      (List.filter (fun e => !(e.1 == REFRESH_TOKEN_KEY))
        (List.filter (fun e => !(e.1 == TOKEN_KEY)) jar)) =
      List.filter (fun e => !(e.1 == REFRESH_TOKEN_KEY))
        (List.filter (fun e => !(e.1 == TOKEN_KEY)) jar) := by
    apply List.filter_eq_self.mpr
    intro x hx
    exact (List.mem_filter.mp (List.mem_filter.mp hx).1).2
  rw [h1]
  apply List.filter_eq_self.mpr
  intro x hx
  exact (List.mem_filter.mp hx).2

/-! ### Interceptor lemmas -/

theorem attachToken_headerGet_ne (jar : CookieJar) (config : Request) (k : String)
    (h : (k == "Authorization") = false) :
    headerGet (attachToken jar config).headers k = headerGet config.headers k := by
  unfold attachToken
  cases getToken jar with
  | none => rfl
  | some token =>
      by_cases he : token.isEmpty = true
      · simp [he]
      · simp only [Bool.not_eq_true] at he
        simp [he, headerGet_headerSet_ne _ _ _ _ h]

theorem attachToken_url (jar : CookieJar) (config : Request) :
    (attachToken jar config).url = config.url := by
  unfold attachToken
  cases getToken jar with
  | none => rfl
  | some token =>
      by_cases he : token.isEmpty = true
      · simp [he]
      · simp only [Bool.not_eq_true] at he
        simp [he]

theorem attachToken_method (jar : CookieJar) (config : Request) :
    (attachToken jar config).method = config.method := by
  unfold attachToken
  cases getToken jar with
  | none => rfl
  | some token =>
      by_cases he : token.isEmpty = true
      · simp [he]
      · simp only [Bool.not_eq_true] at he
        simp [he]

theorem attachToken_body (jar : CookieJar) (config : Request) :
    (attachToken jar config).body = config.body := by
  unfold attachToken
  cases getToken jar with
  | none => rfl
  | some token =>
      by_cases he : token.isEmpty = true
      · simp [he]
      · simp only [Bool.not_eq_true] at he
        simp [he]

/-- The handler leaves a request marked `X-Retry` alone: it rejects with the
original error, touches no state, and calls the refresh endpoint zero times. -/
theorem handle401_marked (env : Env) (refresh : RefreshOutcome) (err : ErrorObj)
    (req : Request) (hc : err.config = some req)
    (hm : truthy (headerGet req.headers "X-Retry") = true) :
    handle401 env refresh err = ⟨env, .reject .original, false⟩ := by
  unfold handle401
  rw [hc]
  simp [hm]

/-- Any request the handler redispatches carries the `X-Retry: true` marker. -/
theorem handle401_redispatch_marked (env : Env) (refresh : RefreshOutcome) (err : ErrorObj)
    (req2 : Request) (h : (handle401 env refresh err).result = .redispatch req2) :
    headerGet req2.headers "X-Retry" = some "true" := by
  unfold handle401 at h
  repeat' split at h
  all_goals try simp_all
  subst h
  simp [headerGet_headerSet_self]

/-- With a 401, an unmarked request and no (or empty) stored refresh token,
the handler clears both tokens, redirects to `/login`, rejects with the
original error and never calls the refresh endpoint. -/
theorem handle401_noRefreshToken (env : Env) (refresh : RefreshOutcome) (err : ErrorObj)
    (req : Request) (hc : err.config = some req) (hs : err.status = some 401)
    (hm : truthy (headerGet req.headers "X-Retry") = false)
    (hrt : truthy (getRefreshToken env.jar) = false) :
    handle401 env refresh err = ⟨⟨removeTokens env.jar, some "/login"⟩, .reject .original, false⟩ := by
  unfold handle401
  rw [hc]
  simp [hs, hm, hrt]

/-- With a 401, an unmarked request, a stored refresh token and a refresh
call that throws, the handler clears both tokens, redirects to `/login` and
rejects with the refresh error. -/
theorem handle401_netError (env : Env) (e : Nat) (err : ErrorObj)
    (req : Request) (hc : err.config = some req) (hs : err.status = some 401)
    (hm : truthy (headerGet req.headers "X-Retry") = false)
    (hrt : truthy (getRefreshToken env.jar) = true) :
    handle401 env (.netError e) err =
      ⟨⟨removeTokens env.jar, some "/login"⟩, .reject (.refreshErr e), true⟩ := by
  unfold handle401
  rw [hc]
  simp [hs, hm, hrt]

/-- With a 401, an unmarked request, a stored refresh token and a refresh
response whose body is not a success carrying tokens, the handler changes no
state and rejects with the original error (the refresh endpoint was called). -/
theorem handle401_badBody (env : Env) (success : Bool) (tokens : Option (String × String))
    (err : ErrorObj) (req : Request) (hc : err.config = some req) (hs : err.status = some 401)
    (hm : truthy (headerGet req.headers "X-Retry") = false)
    (hrt : truthy (getRefreshToken env.jar) = true)
    (hbad : success = false ∨ tokens = none) :
    handle401 env (.ok success tokens) err = ⟨env, .reject .original, true⟩ := by
  unfold handle401
  rw [hc]
  rcases hbad with hb | hb
  · subst hb
    simp [hs, hm, hrt]
  · subst hb
    cases success <;> simp [hs, hm, hrt]

/-- With a 401, an unmarked request, a stored refresh token and a successful
refresh response carrying tokens, the handler stores both new tokens and
redispatches the original request with the new bearer token and the marker. -/
theorem handle401_refreshOk (env : Env) (a r : String) (err : ErrorObj)
    (req : Request) (hc : err.config = some req) (hs : err.status = some 401)
    (hm : truthy (headerGet req.headers "X-Retry") = false)
    (hrt : truthy (getRefreshToken env.jar) = true) :
    handle401 env (.ok true (some (a, r))) err =
      ⟨⟨setRefreshToken (setToken env.jar a) r, env.location⟩,
        .redispatch { req with
          headers := headerSet (headerSet req.headers "Authorization" ("Bearer " ++ a)) "X-Retry" "true" },
        true⟩ := by
  unfold handle401
  rw [hc]
  simp [hs, hm, hrt]

theorem dispatchFuel_succ (server : Request → ServerResponse) (refresh : RefreshOutcome)
    (fuel : Nat) (env : Env) (req : Request) :
    dispatchFuel server refresh (fuel + 1) env req =
      (let req' := attachToken env.jar req
       match server req' with
       | .success d => ⟨env, .ok d, [req'], 0⟩
       | .error st =>
           let h := handle401 env refresh ⟨st, some req'⟩
           match h.result with
           | .redispatch req2 =>
               let rest := dispatchFuel server refresh fuel h.env req2
               ⟨rest.env, rest.outcome, req' :: rest.sent,
                 (if h.refreshAttempted then 1 else 0) + rest.refreshCalls⟩
           | .reject r =>
               ⟨h.env, .rejected r, [req'], if h.refreshAttempted then 1 else 0⟩) := rfl

theorem attachToken_xretry (jar : CookieJar) (req : Request) :
    headerGet (attachToken jar req).headers "X-Retry" = headerGet req.headers "X-Retry" :=
  attachToken_headerGet_ne jar req "X-Retry" (by decide)

/-- Dispatching a request already marked `X-Retry: true` with any amount of
fuel sends it exactly once, settles without exhausting the fuel, and never
calls the refresh endpoint. -/
theorem dispatchFuel_marked (server : Request → ServerResponse) (refresh : RefreshOutcome)
    (fuel : Nat) (env : Env) (req : Request)
    (hm : truthy (headerGet req.headers "X-Retry") = true) :
    (dispatchFuel server refresh (fuel + 1) env req).outcome ≠ Outcome.fuelExhausted
    ∧ (dispatchFuel server refresh (fuel + 1) env req).refreshCalls = 0
    ∧ (dispatchFuel server refresh (fuel + 1) env req).sent = [attachToken env.jar req] := by
  simp only [dispatchFuel_succ]
  cases hs : server (attachToken env.jar req) with
  | success d => simp
  | error st =>
      have hm' : truthy (headerGet (attachToken env.jar req).headers "X-Retry") = true := by
        rw [attachToken_xretry]
        exact hm
      simp [handle401_marked env refresh ⟨st, some (attachToken env.jar req)⟩
        (attachToken env.jar req) rfl hm']

/-- With fuel for two dispatches the pipeline always settles and calls the
refresh endpoint at most once. -/
theorem dispatchFuel_two (server : Request → ServerResponse) (refresh : RefreshOutcome)
    (fuel : Nat) (env : Env) (req : Request) :
    (dispatchFuel server refresh (fuel + 1 + 1) env req).outcome ≠ Outcome.fuelExhausted
    ∧ (dispatchFuel server refresh (fuel + 1 + 1) env req).refreshCalls ≤ 1 := by
  rw [dispatchFuel_succ]
  simp only []
  cases hs : server (attachToken env.jar req) with
  | success d => simp
  | error st =>
      cases hr : (handle401 env refresh ⟨st, some (attachToken env.jar req)⟩).result with
      | reject r =>
          simp only [hr]
          constructor
          · simp
          · split <;> simp
      | redispatch req2 =>
          have hmark : truthy (headerGet req2.headers "X-Retry") = true := by
            rw [handle401_redispatch_marked env refresh _ req2 hr]
            rfl
          have hrec := dispatchFuel_marked server refresh fuel
            (handle401 env refresh ⟨st, some (attachToken env.jar req)⟩).env req2 hmark
          simp only [hr]
          constructor
          · simpa using hrec.1
          · rw [hrec.2.1]
            split <;> simp

/-- Re-running the request interceptor over a request that already carries
`Authorization: Bearer <t>` for the stored token `t` leaves that header value
in place (it is overwritten with the same value, or left alone). -/
theorem attachToken_auth_of_getToken (jar : CookieJar) (req : Request) (t : String)
    (h : getToken jar = some t)
    (hprev : headerGet req.headers "Authorization" = some ("Bearer " ++ t)) :
    headerGet (attachToken jar req).headers "Authorization" = some ("Bearer " ++ t) := by
  unfold attachToken
  rw [h]
  by_cases he : t.isEmpty = true
  · simp [he, hprev]
  · simp only [Bool.not_eq_true] at he
    simp [he, headerGet_headerSet_self]

/-- Dispatching a marked request that the server answers with an error
settles in one round: reject with the original error, no state change, no
refresh call. -/
theorem dispatchFuel_marked_reject (server : Request → ServerResponse) (refresh : RefreshOutcome)
    (fuel : Nat) (env : Env) (req : Request) (st : Option Nat)
    (hm : truthy (headerGet req.headers "X-Retry") = true)
    (hs : server (attachToken env.jar req) = ServerResponse.error st) :
    dispatchFuel server refresh (fuel + 1) env req =
      ⟨env, .rejected .original, [attachToken env.jar req], 0⟩ := by
  have hm' : truthy (headerGet (attachToken env.jar req).headers "X-Retry") = true := by
    rw [attachToken_xretry]
    exact hm
  rw [dispatchFuel_succ]
  simp [hs, handle401_marked env refresh ⟨st, some (attachToken env.jar req)⟩
    (attachToken env.jar req) rfl hm']

theorem cookieExpiry_cookiesSet_self (jar : CookieJar) (k v : String) (e : Nat) :
    cookieExpiry (cookiesSet jar k v e) k = some e := by
  unfold cookieExpiry cookiesSet
  simp [List.find?_cons]

theorem jsOrStr_falsy (o : Option String) (b : String) (h : truthy o = false) :
    jsOrStr o b = b := by
  cases o with
  | none => rfl
  | some s =>
      unfold truthy at h
      simp only [Bool.not_eq_false'] at h
      simp [jsOrStr, h]

theorem jsOrStr_truthy (o : Option String) (b s : String) (h : o = some s)
    (hs : s.isEmpty = false) : jsOrStr o b = s := by
  subst h
  simp [jsOrStr, hs]

/-! ### Claim theorems -/

/-- C1: when a non-empty access token is stored at dispatch time, the
request interceptor sets `Authorization` to exactly `Bearer <token>` and
changes nothing else about the request: url, method, body and every other
header are unchanged. -/
theorem C1_attach_bearer (jar : CookieJar) (req : Request) (t : String)
    (h1 : getToken jar = some t) (h2 : t.isEmpty = false) :
    headerGet (attachToken jar req).headers "Authorization" = some ("Bearer " ++ t)
    ∧ (attachToken jar req).url = req.url
    ∧ (attachToken jar req).method = req.method
    ∧ (attachToken jar req).body = req.body
    ∧ ∀ k, (k == "Authorization") = false →
        headerGet (attachToken jar req).headers k = headerGet req.headers k := by
  refine ⟨?_, attachToken_url jar req, attachToken_method jar req, attachToken_body jar req,
    fun k hk => attachToken_headerGet_ne jar req k hk⟩
  unfold attachToken
  rw [h1]
  simp [h2, headerGet_headerSet_self]

/-- C1 witness: concrete store and request. -/
theorem C1_attach_bearer_witness :
    headerGet (attachToken [(TOKEN_KEY, "tok", 7)] ⟨"/users", "GET", "", [("Accept", "json")]⟩).headers
        "Authorization" = some ("Bearer " ++ "tok")
    ∧ (attachToken [(TOKEN_KEY, "tok", 7)] ⟨"/users", "GET", "", [("Accept", "json")]⟩).url = "/users"
    ∧ (attachToken [(TOKEN_KEY, "tok", 7)] ⟨"/users", "GET", "", [("Accept", "json")]⟩).method = "GET"
    ∧ (attachToken [(TOKEN_KEY, "tok", 7)] ⟨"/users", "GET", "", [("Accept", "json")]⟩).body = ""
    ∧ ∀ k, (k == "Authorization") = false →
        headerGet (attachToken [(TOKEN_KEY, "tok", 7)] ⟨"/users", "GET", "", [("Accept", "json")]⟩).headers k
          = headerGet [("Accept", "json")] k :=
  C1_attach_bearer [(TOKEN_KEY, "tok", 7)] ⟨"/users", "GET", "", [("Accept", "json")]⟩ "tok" rfl rfl

/-- C2: with no stored access token the request interceptor is the identity,
no `Authorization` header is added, no error is raised, and the request is
still dispatched (it is the first request sent over the wire), unmodified. -/
theorem C2_no_token_passthrough (env : Env) (req : Request)
    (h : getToken env.jar = none) :
    attachToken env.jar req = req
    ∧ ∀ server refresh fuel,
        (dispatchFuel server refresh (fuel + 1) env req).sent.head? = some req := by
  have hat : attachToken env.jar req = req := by
    unfold attachToken
    rw [h]
  refine ⟨hat, fun server refresh fuel => ?_⟩
  rw [dispatchFuel_succ]
  simp only [hat]
  cases hs : server req with
  | success d => simp
  | error st =>
      cases hr : (handle401 env refresh ⟨st, some req⟩).result with
      | redispatch r2 => simp [hr]
      | reject r => simp [hr]

/-- C2 witness: empty store, concrete request and server. -/
theorem C2_no_token_passthrough_witness :
    attachToken (Env.jar ⟨[], none⟩) ⟨"/users", "GET", "", []⟩ = ⟨"/users", "GET", "", []⟩
    ∧ ∀ server refresh fuel,
        (dispatchFuel server refresh (fuel + 1) ⟨[], none⟩ ⟨"/users", "GET", "", []⟩).sent.head?
          = some ⟨"/users", "GET", "", []⟩ :=
  C2_no_token_passthrough ⟨[], none⟩ ⟨"/users", "GET", "", []⟩ rfl

/-- C6: round-trip — storing an access token and a refresh token and reading
both back yields exactly the stored values. -/
theorem C6_roundtrip (jar : CookieJar) (a r : String) :
    getToken (setRefreshToken (setToken jar a) r) = some a
    ∧ getRefreshToken (setRefreshToken (setToken jar a) r) = some r := by
  constructor
  · rw [getToken_setRefreshToken, getToken_setToken]
  · rw [getRefreshToken_setRefreshToken]

/-- C7: after `removeTokens` both slots read back empty whatever the prior
store contents, removing again is a no-op, and `logout` is idempotent. -/
theorem C7_remove_idempotent (jar : CookieJar) (st : AuthState) :
    getToken (removeTokens jar) = none
    ∧ getRefreshToken (removeTokens jar) = none
    ∧ removeTokens (removeTokens jar) = removeTokens jar
    ∧ logout (logout st) = logout st := by
  refine ⟨getToken_removeTokens jar, getRefreshToken_removeTokens jar, removeTokens_idem jar, ?_⟩
  unfold logout
  simp [removeTokens_idem]

/-- C10: on a 401 for an unmarked request with no stored refresh token the
handler clears both token slots, navigates to `/login`, rejects with the
original error (not a refresh-failure error) and never calls the refresh
endpoint. -/
theorem C10_no_refresh_token (env : Env) (refresh : RefreshOutcome)
    (err : ErrorObj) (req : Request)
    (hc : err.config = some req) (hs : err.status = some 401)
    (hm : truthy (headerGet req.headers "X-Retry") = false)
    (hrt : getRefreshToken env.jar = none) :
    handle401 env refresh err =
      ⟨⟨removeTokens env.jar, some "/login"⟩, .reject .original, false⟩
    ∧ getToken (removeTokens env.jar) = none
    ∧ getRefreshToken (removeTokens env.jar) = none :=
  ⟨handle401_noRefreshToken env refresh err req hc hs hm (by rw [hrt]; rfl),
   getToken_removeTokens env.jar, getRefreshToken_removeTokens env.jar⟩

/-- C10 witness: concrete empty store and 401 error. -/
theorem C10_no_refresh_token_witness :
    handle401 ⟨[], none⟩ (.ok true none) ⟨some 401, some ⟨"/users", "GET", "", []⟩⟩ =
      ⟨⟨removeTokens [], some "/login"⟩, .reject .original, false⟩
    ∧ getToken (removeTokens ([] : CookieJar)) = none
    ∧ getRefreshToken (removeTokens ([] : CookieJar)) = none :=
  C10_no_refresh_token ⟨[], none⟩ (.ok true none) ⟨some 401, some ⟨"/users", "GET", "", []⟩⟩
    ⟨"/users", "GET", "", []⟩ rfl rfl rfl rfl

/-- C9 counterexample: the code writes BOTH slots with `{ expires: 7 }`, so
after storing a pair the access slot's expiry equals the refresh slot's
expiry (both 7 days) — the access slot's expiry is not shorter. -/
theorem C9_expiry_counterexample :
    cookieExpiry (setRefreshToken (setToken [] "a") "r") TOKEN_KEY = some 7
    ∧ cookieExpiry (setRefreshToken (setToken [] "a") "r") REFRESH_TOKEN_KEY = some 7
    ∧ ¬(7 < 7) :=
  ⟨rfl, rfl, by decide⟩

/-- C9 (amended): the store uses two distinct named slots, one per token,
both client-persisted, and both written with the same 7-day expiry. -/
theorem C9_two_slots_same_expiry (jar : CookieJar) (a r : String) :
    TOKEN_KEY ≠ REFRESH_TOKEN_KEY
    ∧ cookieExpiry (setToken jar a) TOKEN_KEY = some 7
    ∧ cookieExpiry (setRefreshToken jar r) REFRESH_TOKEN_KEY = some 7 :=
  ⟨by decide, cookieExpiry_cookiesSet_self jar TOKEN_KEY a 7,
   cookieExpiry_cookiesSet_self jar REFRESH_TOKEN_KEY r 7⟩

/-- C4 counterexample: a 401 whose refresh call resolves with a non-success
body (`success: false`) — a refresh failure in the claim's sense — leaves
both stored tokens in place, performs no redirect, and rejects with the
original error rather than a refresh-failure error. -/
theorem C4_nonsuccess_body_counterexample :
    handle401 ⟨[(REFRESH_TOKEN_KEY, "r0", 7)], none⟩ (.ok false none)
        ⟨some 401, some ⟨"/users", "GET", "", []⟩⟩
      = ⟨⟨[(REFRESH_TOKEN_KEY, "r0", 7)], none⟩, .reject .original, true⟩
    ∧ getRefreshToken (handle401 ⟨[(REFRESH_TOKEN_KEY, "r0", 7)], none⟩ (.ok false none)
        ⟨some 401, some ⟨"/users", "GET", "", []⟩⟩).env.jar = some "r0"
    ∧ (handle401 ⟨[(REFRESH_TOKEN_KEY, "r0", 7)], none⟩ (.ok false none)
        ⟨some 401, some ⟨"/users", "GET", "", []⟩⟩).env.location ≠ some "/login"
    ∧ (handle401 ⟨[(REFRESH_TOKEN_KEY, "r0", 7)], none⟩ (.ok false none)
        ⟨some 401, some ⟨"/users", "GET", "", []⟩⟩).result ≠ .reject (.refreshErr 0) :=
  ⟨rfl, rfl, by decide, by decide⟩

/-- C4 (amended): for a 401 on an unmarked request, the three refresh
failure modes behave differently.  A refresh call that throws (network
error / error status) clears both tokens, redirects to `/login` and rejects
with the refresh error.  An absent (or empty) refresh token clears both
tokens and redirects, but rejects with the original 401.  A refresh
response with a non-success body (or no tokens) clears nothing, performs no
redirect, and rejects with the original error. -/
theorem C4_refresh_failure_modes (env : Env) (err : ErrorObj) (req : Request)
    (hc : err.config = some req) (hs : err.status = some 401)
    (hm : truthy (headerGet req.headers "X-Retry") = false) :
    (∀ e, truthy (getRefreshToken env.jar) = true →
      handle401 env (.netError e) err =
        ⟨⟨removeTokens env.jar, some "/login"⟩, .reject (.refreshErr e), true⟩)
    ∧ (∀ refresh, truthy (getRefreshToken env.jar) = false →
      handle401 env refresh err =
        ⟨⟨removeTokens env.jar, some "/login"⟩, .reject .original, false⟩)
    ∧ (∀ success tokens, truthy (getRefreshToken env.jar) = true →
        success = false ∨ tokens = none →
      handle401 env (.ok success tokens) err = ⟨env, .reject .original, true⟩) :=
  ⟨fun e hrt => handle401_netError env e err req hc hs hm hrt,
   fun refresh hrt => handle401_noRefreshToken env refresh err req hc hs hm hrt,
   fun success tokens hrt hbad => handle401_badBody env success tokens err req hc hs hm hrt hbad⟩

/-- C4 witness: concrete store with a refresh token, concrete 401 error. -/
theorem C4_refresh_failure_modes_witness :
    (∀ e, truthy (getRefreshToken (Env.jar ⟨[(REFRESH_TOKEN_KEY, "r0", 7)], none⟩)) = true →
      handle401 ⟨[(REFRESH_TOKEN_KEY, "r0", 7)], none⟩ (.netError e)
          ⟨some 401, some ⟨"/users", "GET", "", []⟩⟩ =
        ⟨⟨removeTokens [(REFRESH_TOKEN_KEY, "r0", 7)], some "/login"⟩,
          .reject (.refreshErr e), true⟩)
    ∧ (∀ refresh, truthy (getRefreshToken (Env.jar ⟨[(REFRESH_TOKEN_KEY, "r0", 7)], none⟩)) = false →
      handle401 ⟨[(REFRESH_TOKEN_KEY, "r0", 7)], none⟩ refresh
          ⟨some 401, some ⟨"/users", "GET", "", []⟩⟩ =
        ⟨⟨removeTokens [(REFRESH_TOKEN_KEY, "r0", 7)], some "/login"⟩, .reject .original, false⟩)
    ∧ (∀ success tokens,
        truthy (getRefreshToken (Env.jar ⟨[(REFRESH_TOKEN_KEY, "r0", 7)], none⟩)) = true →
        success = false ∨ tokens = none →
      handle401 ⟨[(REFRESH_TOKEN_KEY, "r0", 7)], none⟩ (.ok success tokens)
          ⟨some 401, some ⟨"/users", "GET", "", []⟩⟩ =
        ⟨⟨[(REFRESH_TOKEN_KEY, "r0", 7)], none⟩, .reject .original, true⟩) :=
  C4_refresh_failure_modes ⟨[(REFRESH_TOKEN_KEY, "r0", 7)], none⟩
    ⟨some 401, some ⟨"/users", "GET", "", []⟩⟩ ⟨"/users", "GET", "", []⟩ rfl rfl rfl

/-- C8 counterexample: an axios error with a response body carrying neither
`error` nor `message` does not yield a generic fallback — the code first
falls back to the error object's own `message` (for instance axios's
`Network Error`). -/
theorem C8_message_fallback_counterexample :
    handleApiError (.axios (some ⟨some ⟨none, none⟩⟩) "Network Error") = "Network Error"
    ∧ "Network Error" ≠ "An error occurred"
    ∧ "Network Error" ≠ "An unexpected error occurred" :=
  ⟨rfl, by decide, by decide⟩

/-- C8 (amended): the user-facing message is extracted preferentially from
the body's `error` field, then the body's `message` field, then the error
object's own `message`, then the generic string; a plain `Error` yields its
own message; any other value yields the generic unexpected-error string. -/
theorem C8_handleApiError_spec :
    (∀ resp msg e, ((resp.bind AxiosResp.data).bind ApiBody.error) = some e →
        e.isEmpty = false → handleApiError (.axios resp msg) = e)
    ∧ (∀ resp msg m, truthy ((resp.bind AxiosResp.data).bind ApiBody.error) = false →
        ((resp.bind AxiosResp.data).bind ApiBody.message) = some m → m.isEmpty = false →
        handleApiError (.axios resp msg) = m)
    ∧ (∀ resp msg, truthy ((resp.bind AxiosResp.data).bind ApiBody.error) = false →
        truthy ((resp.bind AxiosResp.data).bind ApiBody.message) = false →
        msg.isEmpty = false → handleApiError (.axios resp msg) = msg)
    ∧ (∀ resp msg, truthy ((resp.bind AxiosResp.data).bind ApiBody.error) = false →
        truthy ((resp.bind AxiosResp.data).bind ApiBody.message) = false →
        msg.isEmpty = true → handleApiError (.axios resp msg) = "An error occurred")
    ∧ (∀ m, handleApiError (.plain m) = m)
    ∧ handleApiError .other = "An unexpected error occurred" := by
  refine ⟨?_, ?_, ?_, ?_, fun m => rfl, rfl⟩
  · intro resp msg e he hne
    unfold handleApiError
    exact jsOrStr_truthy _ _ e he hne
  · intro resp msg m hf hm hne
    unfold handleApiError
    dsimp only
    rw [jsOrStr_falsy _ _ hf]
    exact jsOrStr_truthy _ _ m hm hne
  · intro resp msg hf hmf hne
    unfold handleApiError
    dsimp only
    rw [jsOrStr_falsy _ _ hf, jsOrStr_falsy _ _ hmf]
    exact jsOrStr_truthy _ _ msg rfl hne
  · intro resp msg hf hmf hemp
    unfold handleApiError
    dsimp only
    rw [jsOrStr_falsy _ _ hf, jsOrStr_falsy _ _ hmf]
    unfold jsOrStr
    simp [hemp]

/-- C8 witness: a body `error` field wins over everything else. -/
theorem C8_handleApiError_spec_witness :
    handleApiError (.axios (some ⟨some ⟨some "boom", some "msg"⟩⟩) "axios msg") = "boom" :=
  C8_handleApiError_spec.1 (some ⟨some ⟨some "boom", some "msg"⟩⟩) "axios msg" "boom" rfl rfl

/-- C5: the refresh transport is a separate oracle that never re-enters the
interceptor pipeline, so for every server behaviour, every refresh outcome
(including a 401-induced throw at the refresh endpoint) and every starting
state, a dispatch with fuel for two rounds always settles — the fuel is
never exhausted — and the refresh endpoint is called at most once. -/
theorem C5_terminates_one_refresh (server : Request → ServerResponse) (refresh : RefreshOutcome)
    (fuel : Nat) (env : Env) (req : Request) :
    (dispatchFuel server refresh (fuel + 1 + 1) env req).outcome ≠ Outcome.fuelExhausted
    ∧ (dispatchFuel server refresh (fuel + 1 + 1) env req).refreshCalls ≤ 1 :=
  dispatchFuel_two server refresh fuel env req

/-- C5 witness: a server that always answers 401 and a refresh throwing. -/
theorem C5_terminates_one_refresh_witness :
    (dispatchFuel (fun _ => .error (some 401)) (.netError 0) (0 + 1 + 1)
        ⟨[(REFRESH_TOKEN_KEY, "r0", 7)], none⟩ ⟨"/users", "GET", "", []⟩).outcome
      ≠ Outcome.fuelExhausted
    ∧ (dispatchFuel (fun _ => .error (some 401)) (.netError 0) (0 + 1 + 1)
        ⟨[(REFRESH_TOKEN_KEY, "r0", 7)], none⟩ ⟨"/users", "GET", "", []⟩).refreshCalls ≤ 1 :=
  C5_terminates_one_refresh (fun _ => .error (some 401)) (.netError 0) 0
    ⟨[(REFRESH_TOKEN_KEY, "r0", 7)], none⟩ ⟨"/users", "GET", "", []⟩

/-- C3: a 401 on an unmarked request with a stored refresh token and a
refresh call resolving successfully with new tokens is redispatched exactly
once: exactly two requests go over the wire, the second carrying
`Authorization: Bearer <new access token>` and the `X-Retry` marker; the
refresh endpoint is called exactly once; and although the retried request
receives 401 again, the outcome is a rejection with the original error of
that retried request — no second redispatch.  Moreover the handler never
redispatches any request already carrying a truthy `X-Retry` marker,
whatever the response. -/
theorem C3_retry_exactly_once (server : Request → ServerResponse)
    (env : Env) (req : Request) (a nrt : String) (fuel : Nat)
    (hserver : ∀ r, server r = ServerResponse.error (some 401))
    (hrt : truthy (getRefreshToken env.jar) = true)
    (hmark : truthy (headerGet req.headers "X-Retry") = false) :
    (∃ rdr,
      (dispatchFuel server (.ok true (some (a, nrt))) (fuel + 1 + 1) env req).sent
          = [attachToken env.jar req, rdr]
      ∧ headerGet rdr.headers "Authorization" = some ("Bearer " ++ a)
      ∧ truthy (headerGet rdr.headers "X-Retry") = true)
    ∧ (dispatchFuel server (.ok true (some (a, nrt))) (fuel + 1 + 1) env req).refreshCalls = 1
    ∧ (dispatchFuel server (.ok true (some (a, nrt))) (fuel + 1 + 1) env req).outcome
        = Outcome.rejected Rejection.original
    ∧ (∀ env0 refresh0 err0 req0 r2, err0.config = some req0 →
        truthy (headerGet req0.headers "X-Retry") = true →
        (handle401 env0 refresh0 err0).result ≠ HandlerResult.redispatch r2) := by
  have hm1 : truthy (headerGet (attachToken env.jar req).headers "X-Retry") = false := by
    rw [attachToken_xretry]
    exact hmark
  have hout := handle401_refreshOk env a nrt ⟨some 401, some (attachToken env.jar req)⟩
    (attachToken env.jar req) rfl rfl hm1 hrt
  have hm2 : truthy (headerGet ({ attachToken env.jar req with
      headers := headerSet (headerSet (attachToken env.jar req).headers "Authorization"
        ("Bearer " ++ a)) "X-Retry" "true" } : Request).headers "X-Retry") = true := by
    dsimp only
    rw [headerGet_headerSet_self]
    rfl
  have hdisp : dispatchFuel server (.ok true (some (a, nrt))) (fuel + 1 + 1) env req =
      ⟨⟨setRefreshToken (setToken env.jar a) nrt, env.location⟩, .rejected .original,
        [attachToken env.jar req,
         attachToken (setRefreshToken (setToken env.jar a) nrt)
           { attachToken env.jar req with
             headers := headerSet (headerSet (attachToken env.jar req).headers "Authorization"
               ("Bearer " ++ a)) "X-Retry" "true" }], 1⟩ := by
    rw [dispatchFuel_succ]
    dsimp only
    rw [hserver (attachToken env.jar req)]
    dsimp only
    rw [hout]
    dsimp only
    rw [dispatchFuel_marked_reject server (.ok true (some (a, nrt))) fuel
      ⟨setRefreshToken (setToken env.jar a) nrt, env.location⟩
      { attachToken env.jar req with
        headers := headerSet (headerSet (attachToken env.jar req).headers "Authorization"
          ("Bearer " ++ a)) "X-Retry" "true" } (some 401) hm2 (hserver _)]
    rfl
  have hga : getToken (setRefreshToken (setToken env.jar a) nrt) = some a := by
    rw [getToken_setRefreshToken, getToken_setToken]
  have hprev : headerGet ({ attachToken env.jar req with
      headers := headerSet (headerSet (attachToken env.jar req).headers "Authorization"
        ("Bearer " ++ a)) "X-Retry" "true" } : Request).headers "Authorization"
      = some ("Bearer " ++ a) := by
    dsimp only
    rw [headerGet_headerSet_ne _ _ _ _ (by decide), headerGet_headerSet_self]
  refine ⟨⟨attachToken (setRefreshToken (setToken env.jar a) nrt)
      { attachToken env.jar req with
        headers := headerSet (headerSet (attachToken env.jar req).headers "Authorization"
          ("Bearer " ++ a)) "X-Retry" "true" }, ?_, ?_, ?_⟩, ?_, ?_, ?_⟩
  · rw [hdisp]
  · exact attachToken_auth_of_getToken _ _ a hga hprev
  · rw [attachToken_xretry]
    dsimp only
    rw [headerGet_headerSet_self]
    rfl
  · rw [hdisp]
  · rw [hdisp]
  · intro env0 refresh0 err0 req0 r2 hc0 hm0
    rw [handle401_marked env0 refresh0 err0 req0 hc0 hm0]
    simp

/-- C3 witness: a server that always answers 401, a store holding a refresh
token, and a refresh call resolving with fresh tokens. -/
theorem C3_retry_exactly_once_witness :
    (dispatchFuel (fun _ => ServerResponse.error (some 401)) (.ok true (some ("newA", "newR")))
        (0 + 1 + 1) ⟨[(REFRESH_TOKEN_KEY, "r0", 7)], none⟩
        ⟨"/users", "GET", "", []⟩).refreshCalls = 1
    ∧ (dispatchFuel (fun _ => ServerResponse.error (some 401)) (.ok true (some ("newA", "newR")))
        (0 + 1 + 1) ⟨[(REFRESH_TOKEN_KEY, "r0", 7)], none⟩
        ⟨"/users", "GET", "", []⟩).outcome = Outcome.rejected Rejection.original :=
  ⟨(C3_retry_exactly_once (fun _ => ServerResponse.error (some 401))
      ⟨[(REFRESH_TOKEN_KEY, "r0", 7)], none⟩ ⟨"/users", "GET", "", []⟩ "newA" "newR" 0
      (fun _ => rfl) rfl rfl).2.1,
   (C3_retry_exactly_once (fun _ => ServerResponse.error (some 401))
      ⟨[(REFRESH_TOKEN_KEY, "r0", 7)], none⟩ ⟨"/users", "GET", "", []⟩ "newA" "newR" 0
      (fun _ => rfl) rfl rfl).2.2.1⟩

end Hamsaya
